import Mathlib

/-!
Shallow embedding of the Space Invaders game
(src/space_invaders_package/source/classes.py and constants.py).

Conventions of the embedding:
- pygame rectangles are records of integer x, y, width, height;
  left = x, right = x + w, top = y, bottom = y + h, and setting the
  center of a rect of size w assigns x = cx - w / 2 (floor division,
  all sizes are nonnegative in practice).
- pygame sprite groups are Lean lists in insertion order; Group.add
  appends, Sprite.kill removes the sprite from the list.
- pygame collision masks are lists of set pixel offsets; collide_mask
  succeeds when the two masks share an absolute pixel.
- the monotonic clock pygame.time.get_ticks is modelled as one Nat
  reading per frame, supplied as frame input; Python int subtraction
  followed by a comparison with a nonnegative literal agrees with
  truncated Nat subtraction for nondecreasing tick values.
- image and sound assets are not in the repository, so image sizes and
  masks are parameters (an Assets record); sound playback and drawing
  are side effects with no game-state content, except that drawing the
  WIN and GAME OVER texts is reported in the frame result.
- random.choice over the alien group is modelled by an index supplied
  as frame input, reduced modulo the group size; choosing from an
  empty group raises IndexError in Python, which the embedding models
  by returning none (a crashed frame) from play_step.
-/

set_option maxRecDepth 100000

namespace SpaceInvaders

/-! ### constants.py -/

def FPS : Nat := 90
def SCREEN_WIDTH : Int := 600
def SCREEN_HEIGHT : Int := 800
def ROW_OF_ENEMIES : Nat := 5
def COLUMN_OF_ENEMIES : Nat := 5
def PLAYER_COOLDOWN : Nat := 300
def PLAYER_START_HEALTH : Int := 3
def PLAYER_SPEED : Int := 5
def PLAYER_BULLET_SPEED : Int := 5
def ENEMY_BULLET_SPEED : Int := 4
def ALIEN_COOLDOWN : Nat := 1000
def EXPLOSION_SPEED : Nat := 3
def GAME_COOLDOWN : Nat := 5

/-- Number of explosion animation frames: Explosion loads exp1.png
through exp5.png. -/
def NUM_EXPLOSION_IMAGES : Nat := 5

/-! ### pygame geometry -/

structure Rect where
  x : Int
  y : Int
  w : Int
  h : Int
deriving DecidableEq, Repr

def Rect.left (r : Rect) : Int := r.x
def Rect.right (r : Rect) : Int := r.x + r.w
def Rect.top (r : Rect) : Int := r.y
def Rect.bottom (r : Rect) : Int := r.y + r.h
def Rect.centerx (r : Rect) : Int := r.x + r.w / 2
def Rect.centery (r : Rect) : Int := r.y + r.h / 2

/-- rect = image.get_rect(); rect.center = (cx, cy). -/
def mkCenteredRect (w h cx cy : Int) : Rect :=
  { x := cx - w / 2, y := cy - h / 2, w := w, h := h }

/-- pygame.Rect.colliderect: the rectangles overlap with nonzero area. -/
def Rect.colliderect (a b : Rect) : Bool :=
  a.x < b.x + b.w && b.x < a.x + a.w && a.y < b.y + b.h && b.y < a.y + a.h

/-- A pygame mask: the list of set pixel offsets of a surface. -/
abbrev Mask := List (Int × Int)

/-- pygame.sprite.collide_mask for sprite a at rect ra with mask ma and
sprite b at rect rb with mask mb: the masks share an absolute pixel. -/
def collide_mask (ra : Rect) (ma : Mask) (rb : Rect) (mb : Mask) : Bool :=
  ma.any fun p =>
    mb.contains (p.1 + ra.x - rb.x, p.2 + ra.y - rb.y)

/-! ### Asset parameters

The sprite images (and hence rect sizes and masks) are loaded from png
files that are not part of the source tree, so they are parameters. -/

structure Assets where
  shipW : Int
  shipH : Int
  shipMask : Mask
  playerBulletW : Int
  playerBulletH : Int
  enemyBulletW : Int
  enemyBulletH : Int
  enemyBulletMask : Mask
deriving DecidableEq, Repr

/-! ### Spaceship -/

structure Keys where
  left : Bool
  right : Bool
  space : Bool
deriving DecidableEq, Repr

structure Spaceship where
  rect : Rect
  mask : Mask
  health_start : Int
  health_remaining : Int
  last_shot : Nat
  explosion_created : Bool
deriving DecidableEq, Repr

/-- Spaceship._move: one conditional step left then one conditional
step right, the second test reading the already moved rect. -/
def Spaceship.move (k : Keys) (s : Spaceship) : Spaceship :=
  let r1 := if k.left ∧ s.rect.left > 0 then
      { s.rect with x := s.rect.x - PLAYER_SPEED } else s.rect
  let r2 := if k.right ∧ r1.right < SCREEN_WIDTH then
      { r1 with x := r1.x + PLAYER_SPEED } else r1
  { s with rect := r2 }

structure Bullet where
  rect : Rect
deriving DecidableEq, Repr

/-- Spaceship._shoot: fire a player bullet from (centerx, top) when the
space key is held, the cooldown has elapsed and health is positive. -/
def Spaceship.shoot (A : Assets) (k : Keys) (now : Nat) (s : Spaceship) :
    Spaceship × Option Bullet :=
  if k.space ∧ now - s.last_shot > PLAYER_COOLDOWN ∧ s.health_remaining > 0 then
    let b : Bullet :=
      { rect := mkCenteredRect A.playerBulletW A.playerBulletH s.rect.centerx s.rect.top }
    ({ s with last_shot := now }, some b)
  else (s, none)

/-! ### Explosion -/

structure Explosion where
  size : Nat
  index : Nat
  counter : Nat
deriving DecidableEq, Repr

/-- Explosion.__init__ at a given size class. -/
def freshExplosion (size : Nat) : Explosion :=
  { size := size, index := 0, counter := 0 }

/-- Explosion.update: advance the counter, move to the next frame every
EXPLOSION_SPEED updates, and kill (return none) once the last frame has
been shown for EXPLOSION_SPEED updates. -/
def Explosion.updateStep (e : Explosion) : Option Explosion :=
  let c := e.counter + 1
  let ci :=
    if c ≥ EXPLOSION_SPEED ∧ e.index < NUM_EXPLOSION_IMAGES - 1 then
      ((0 : Nat), e.index + 1)
    else (c, e.index)
  if ci.2 ≥ NUM_EXPLOSION_IMAGES - 1 ∧ ci.1 ≥ EXPLOSION_SPEED then none
  else some { e with index := ci.2, counter := ci.1 }

/-- Spaceship._update_health_bar without the drawing: at nonpositive
health, create the one-shot size 3 explosion and kill the ship
(remove it from the spaceship group). -/
def Spaceship.updateHealthBar (s : Spaceship) (inGroup : Bool)
    (ex : List Explosion) : Spaceship × Bool × List Explosion :=
  if s.health_remaining > 0 then (s, inGroup, ex)
  else
    let se :=
      if s.explosion_created then (s, ex)
      else ({ s with explosion_created := true }, ex ++ [freshExplosion 3])
    (se.1, false, se.2)

/-- Spaceship.update: _move, _shoot, _update_mask (the mask field is
constant), _update_health_bar. Returns the ship, its group membership,
the bullet group and the explosion group. -/
def Spaceship.update (A : Assets) (k : Keys) (now : Nat) (s : Spaceship)
    (inGroup : Bool) (bullets : List Bullet) (ex : List Explosion) :
    Spaceship × Bool × List Bullet × List Explosion :=
  let s1 := s.move k
  let sh := s1.shoot A k now
  let bullets2 := match sh.2 with
    | none => bullets
    | some b => bullets ++ [b]
  let ub := sh.1.updateHealthBar inGroup ex
  (ub.1, ub.2.1, bullets2, ub.2.2)

/-! ### Alien -/

structure Alien where
  rect : Rect
  move_counter : Int
  move_direction : Int
deriving DecidableEq, Repr

/-- Alien._movement: step by move_direction, bump the counter, and when
its absolute value exceeds 75 negate the direction and multiply the
counter by the new direction. -/
def Alien.movement (a : Alien) : Alien :=
  let r := { a.rect with x := a.rect.x + a.move_direction }
  let c := a.move_counter + 1
  if c.natAbs > 75 then
    { rect := r, move_counter := c * (-a.move_direction),
      move_direction := -a.move_direction }
  else
    { rect := r, move_counter := c, move_direction := a.move_direction }

/-! ### Bullet update and collision -/

/-- Bullet._collision: spritecollide against the alien group with
dokill = True removes every alien whose rect overlaps the bullet; when
the returned hit list is nonempty the bullet kills itself and one size
2 explosion is added. -/
def Bullet.collisionStep (b : Bullet) (aliens : List Alien)
    (ex : List Explosion) : Option Bullet × List Alien × List Explosion :=
  let collided := aliens.filter fun a => Rect.colliderect b.rect a.rect
  let remaining := aliens.filter fun a => !(Rect.colliderect b.rect a.rect)
  if collided.isEmpty then (some b, remaining, ex)
  else (none, remaining, ex ++ [freshExplosion 2])

/-- Bullet.update: _movement (move up, kill past the top edge) then
_collision; the collision still runs for a bullet the movement killed. -/
def Bullet.updateOne (b : Bullet) (aliens : List Alien)
    (ex : List Explosion) : Option Bullet × List Alien × List Explosion :=
  let r : Rect := { b.rect with y := b.rect.y - PLAYER_BULLET_SPEED }
  let offKilled := r.y < -10
  let u := Bullet.collisionStep { rect := r } aliens ex
  (if offKilled then none else u.1, u.2.1, u.2.2)

/-- bullet_group.update(): each live bullet updates in insertion order
against the evolving alien and explosion groups. -/
def bulletGroupUpdate : List Bullet → List Alien → List Explosion →
    List Bullet × List Alien × List Explosion
  | [], aliens, ex => ([], aliens, ex)
  | b :: bs, aliens, ex =>
    let u := b.updateOne aliens ex
    let rest := bulletGroupUpdate bs u.2.1 u.2.2
    (match u.1 with
      | none => rest.1
      | some b2 => b2 :: rest.1, rest.2.1, rest.2.2)

/-! ### AlienBullet update and collision -/

structure AlienBullet where
  rect : Rect
  mask : Mask
deriving DecidableEq, Repr

/-- AlienBullet._collision: spritecollide against the spaceship group
with dokill = False under collide_mask; on a hit the bullet kills
itself, the health of the ship is decremented by one and one size 1
explosion is added; the group membership of the ship is returned
unchanged. -/
def AlienBullet.collisionStep (b : AlienBullet) (ship : Spaceship)
    (inGroup : Bool) (ex : List Explosion) :
    Option AlienBullet × Spaceship × Bool × List Explosion :=
  if inGroup ∧ collide_mask b.rect b.mask ship.rect ship.mask then
    (none, { ship with health_remaining := ship.health_remaining - 1 },
      inGroup, ex ++ [freshExplosion 1])
  else (some b, ship, inGroup, ex)

/-- The rect of an alien bullet after its downward movement of one
frame. -/
def AlienBullet.movedRect (b : AlienBullet) : Rect :=
  { b.rect with y := b.rect.y + ENEMY_BULLET_SPEED }

/-- Whether an alien bullet, after its movement, mask-overlaps a ship
standing at rect r with mask m. -/
def AlienBullet.hitsRM (b : AlienBullet) (r : Rect) (m : Mask) : Bool :=
  collide_mask b.movedRect b.mask r m

/-- AlienBullet.update: _movement (move down, kill past the bottom
edge) then _collision; the collision still runs for a bullet the
movement killed. -/
def AlienBullet.updateOne (b : AlienBullet) (ship : Spaceship)
    (inGroup : Bool) (ex : List Explosion) :
    Option AlienBullet × Spaceship × Bool × List Explosion :=
  let r : Rect := b.movedRect
  let offKilled := r.bottom > SCREEN_HEIGHT + 10
  let u := AlienBullet.collisionStep { b with rect := r } ship inGroup ex
  (if offKilled then none else u.1, u.2.1, u.2.2.1, u.2.2.2)

/-- alien_bullet_group.update(): each live alien bullet updates in
insertion order against the ship and the explosion group. -/
def alienBulletGroupUpdate : List AlienBullet → Spaceship → Bool →
    List Explosion → List AlienBullet × Spaceship × Bool × List Explosion
  | [], ship, g, ex => ([], ship, g, ex)
  | b :: bs, ship, g, ex =>
    let u := b.updateOne ship g ex
    let rest := alienBulletGroupUpdate bs u.2.1 u.2.2.1 u.2.2.2
    (match u.1 with
      | none => rest.1
      | some b2 => b2 :: rest.1, rest.2.1, rest.2.2.1, rest.2.2.2)

/-! ### SpaceInvadersGame -/

structure GameState where
  countdown : Nat
  last_count : Nat
  last_alien_shot : Nat
  end_timer : Nat
  ending_music : Bool
  game_over : Int
  ship : Spaceship
  shipInGroup : Bool
  bullets : List Bullet
  aliens : List Alien
  alienBullets : List AlienBullet
  explosions : List Explosion
deriving DecidableEq, Repr

/-- One frame of input: the tick reading, the held keys and the index
the random alien choice resolves to. -/
structure FrameInput where
  now : Nat
  keys : Keys
  choiceIdx : Nat
deriving DecidableEq, Repr

/-- The observable outcome of one play_step call: the new state, the
returned Bool, and whether the WIN and GAME OVER texts were drawn. -/
structure FrameResult where
  state : GameState
  gameOver : Bool
  winShown : Bool
  lossShown : Bool
deriving DecidableEq, Repr

/-- The countdown branch of play_step (countdown nonzero): draw the
GET READY text, decrement the countdown when more than 1000 ticks have
elapsed since the last decrement, then fall through to reset end_timer
and return False. -/
def countdownPhase (inp : FrameInput) (s : GameState)
    (ex0 : List Explosion) : FrameResult :=
  let s1 :=
    if inp.now - s.last_count > 1000 then
      { s with
        countdown := s.countdown - 1
        last_count := inp.now
        explosions := ex0 }
    else { s with explosions := ex0 }
  { state := { s1 with end_timer := inp.now }
    gameOver := false
    winShown := false
    lossShown := false }

/-- The play branch of play_step (countdown zero): update the ship and
all groups, then either let a randomly chosen alien fire (falling
through to reset end_timer) or, when the firing condition fails, draw
the end texts and compare the tick reading against end_timer + 3000.
Returns none when random.choice is applied to an empty alien group
(an IndexError in the Python source). -/
def playPhase (A : Assets) (inp : FrameInput) (s : GameState)
    (ex0 : List Explosion) : Option FrameResult :=
  let aliens_left := s.aliens.length
  let su := s.ship.update A inp.keys inp.now s.shipInGroup s.bullets ex0
  let ship1 := su.1
  let grp1 := su.2.1
  let bu := bulletGroupUpdate su.2.2.1 s.aliens su.2.2.2
  let bullets2 := bu.1
  let aliens3 := bu.2.1.map Alien.movement
  let au := alienBulletGroupUpdate s.alienBullets ship1 grp1 bu.2.2
  let abullets3 := au.1
  let ship3 := au.2.1
  let grp3 := au.2.2.1
  let ex3 := au.2.2.2
  if aliens_left ≠ 0 ∧ ship3.health_remaining ≠ 0 ∧
      inp.now - s.last_alien_shot > ALIEN_COOLDOWN then
    match aliens3.get? (inp.choiceIdx % aliens3.length) with
    | none => none
    | some atk =>
      let nbRect := mkCenteredRect A.enemyBulletW A.enemyBulletH atk.rect.centerx atk.rect.bottom
      let nb : AlienBullet := { rect := nbRect, mask := A.enemyBulletMask }
      let st : GameState :=
        { s with
          ship := ship3
          shipInGroup := grp3
          bullets := bullets2
          aliens := aliens3
          alienBullets := abullets3 ++ [nb]
          explosions := ex3
          last_alien_shot := inp.now
          end_timer := inp.now }
      some { state := st, gameOver := false, winShown := false, lossShown := false }
  else
    let win := aliens_left = 0
    let loss := ship3.health_remaining = 0
    let st : GameState :=
      { s with
        ship := ship3
        shipInGroup := grp3
        bullets := bullets2
        aliens := aliens3
        alienBullets := abullets3
        explosions := ex3
        ending_music := if win ∨ loss then false else s.ending_music }
    some { state := st, gameOver := inp.now - s.end_timer > 3000, winShown := win, lossShown := loss }

/-- explosion_group.update(): every explosion advances, the finished
ones remove themselves. -/
def frameExps (s : GameState) : List Explosion :=
  s.explosions.filterMap Explosion.updateStep

/-- SpaceInvadersGame.play_step: the explosion group updates every
frame, then the countdown or play branch runs. -/
def play_step (A : Assets) (inp : FrameInput) (s : GameState) :
    Option FrameResult :=
  if s.countdown = 0 then playPhase A inp s (frameExps s)
  else some (countdownPhase inp s (frameExps s))

/-- The ship as it stands after the entity updates of one play frame:
spaceship.update, then the bullet group (which does not touch the
ship), then the alien bullet group. -/
def frameShip (A : Assets) (inp : FrameInput) (s : GameState)
    (ex0 : List Explosion) : Spaceship :=
  let su := s.ship.update A inp.keys inp.now s.shipInGroup s.bullets ex0
  let bu := bulletGroupUpdate su.2.2.1 s.aliens su.2.2.2
  (alienBulletGroupUpdate s.alienBullets su.1 su.2.1 bu.2.2).2.1

/-- The alien firing condition of play_step: a nonzero pre-update alien
count, a nonzero (Python truthiness) post-update health, and an elapsed
alien cooldown. -/
def fireCondition (A : Assets) (inp : FrameInput) (s : GameState)
    (ex0 : List Explosion) : Prop :=
  s.aliens.length ≠ 0 ∧ (frameShip A inp s ex0).health_remaining ≠ 0 ∧
    inp.now - s.last_alien_shot > ALIEN_COOLDOWN

/-- SpaceInvadersGame._spawn_aliens: a ROW_OF_ENEMIES by
COLUMN_OF_ENEMIES grid of aliens centered at (100 + item * 100,
100 + row * 70); the image of each alien is a random choice of three
png files, so its size is a parameter per grid slot. -/
def spawn_aliens (dims : Nat → Nat → Int × Int) : List Alien :=
  (List.range ROW_OF_ENEMIES).flatMap fun row =>
    (List.range COLUMN_OF_ENEMIES).map fun item =>
      { rect := mkCenteredRect (dims row item).1 (dims row item).2
          (100 + (item : Int) * 100) (100 + (row : Int) * 70),
        move_counter := 0, move_direction := 1 }

/-- SpaceInvadersGame.__init__ at initial tick reading initTicks. -/
def initState (A : Assets) (dims : Nat → Nat → Int × Int)
    (initTicks : Nat) : GameState :=
  { countdown := GAME_COOLDOWN
    last_count := initTicks
    last_alien_shot := initTicks
    end_timer := 0
    ending_music := true
    game_over := 0
    ship :=
      { rect := mkCenteredRect A.shipW A.shipH (SCREEN_WIDTH / 2)
          (SCREEN_HEIGHT * 4 / 5),
        mask := A.shipMask
        health_start := PLAYER_START_HEALTH
        health_remaining := 3
        last_shot := initTicks
        explosion_created := false }
    shipInGroup := true
    bullets := []
    aliens := spawn_aliens dims
    alienBullets := []
    explosions := [] }

/-! ### Iterated updates of single entities -/

/-- n successive Alien.movement update calls. -/
def alienIter (a : Alien) : Nat → Alien
  | 0 => a
  | n + 1 => Alien.movement (alienIter a n)

/-- n successive Explosion.update calls; none once the explosion has
killed itself. -/
def explosionIter (e : Explosion) : Nat → Option Explosion
  | 0 => some e
  | n + 1 => (explosionIter e n).bind Explosion.updateStep

/-- An alien as spawned (counter 0, direction 1) with rect data zero;
every spawned alien is a relocation of this one. -/
def alien0 : Alien :=
  { rect := { x := 0, y := 0, w := 0, h := 0 },
    move_counter := 0, move_direction := 1 }

/-- Translate the x position of an alien by x0 and overwrite the rect
data Alien.movement never reads. -/
def Alien.relocate (x0 y0 w0 h0 : Int) (a : Alien) : Alien :=
  { a with rect := { x := a.rect.x + x0, y := y0, w := w0, h := h0 } }

/-- Single-pass check that the direction equals d along the first n
states of a trajectory. -/
def alienDirCheck (d : Int) : Nat → Alien → Bool
  | 0, _ => true
  | n + 1, a => (a.move_direction == d) && alienDirCheck d n (Alien.movement a)

/-! ### Concrete states, assets and trajectory checkers used by the claim theorems -/

/-- The inductive invariant of the movement of a spawned alien: four
phases relating position, counter and direction, preserved by
Alien.movement and capping the position offset at 76. -/
def AlienInv (a : Alien) : Prop :=
  (a.move_direction = 1 ∧ -76 ≤ a.move_counter ∧ a.move_counter ≤ 75 ∧
    a.rect.x = a.move_counter) ∨
  (a.move_direction = -1 ∧ -76 ≤ a.move_counter ∧ a.move_counter ≤ 75 ∧
    a.rect.x = -a.move_counter) ∨
  (a.move_direction = 1 ∧ a.move_counter = 76 ∧ a.rect.x = -76) ∨
  (a.move_direction = -1 ∧ a.move_counter = -77 ∧ a.rect.x = -75)

/-- A ship standing 3 pixels from the left edge, inside the screen
bounds. -/
def C8ship : Spaceship :=
  { rect := { x := 3, y := 640, w := 20, h := 20 }, mask := [(0, 0)],
    health_start := 3, health_remaining := 3, last_shot := 0,
    explosion_created := false }

/-- A bullet rect overlapping two aliens at once. -/
def C2bullet : Bullet := { rect := { x := 95, y := 95, w := 10, h := 10 } }

def C2alien1 : Alien :=
  { rect := { x := 90, y := 90, w := 12, h := 12 },
    move_counter := 0, move_direction := 1 }

def C2alien2 : Alien :=
  { rect := { x := 100, y := 90, w := 12, h := 12 },
    move_counter := 0, move_direction := 1 }

def noKeys : Keys := ⟨false, false, false⟩

/-- Concrete assets: 10 by 10 ship image with one set pixel at its top
left corner, 2 by 2 bullet images, enemy bullet mask with one set
pixel. -/
def smallAssets : Assets :=
  { shipW := 10, shipH := 10, shipMask := [(0, 0)],
    playerBulletW := 2, playerBulletH := 2,
    enemyBulletW := 2, enemyBulletH := 2, enemyBulletMask := [(0, 0)] }

/-- An alien bullet that will mask-hit a ship standing at (300, 640)
after moving down ENEMY_BULLET_SPEED = 4 pixels. -/
def hittingBullet : AlienBullet := { rect := ⟨300, 636, 2, 2⟩, mask := [(0, 0)] }

/-- A play-phase state: ship at (300, 640) with health 1, one distant
alien, and two alien bullets that will both mask-hit the ship on the
next frame. -/
def C3state : GameState :=
  { countdown := 0, last_count := 0, last_alien_shot := 0, end_timer := 0,
    ending_music := true, game_over := 0,
    ship := ⟨⟨300, 640, 10, 10⟩, [(0, 0)], 3, 1, 0, false⟩,
    shipInGroup := true, bullets := [],
    aliens := [⟨⟨100, 100, 10, 10⟩, 0, 1⟩],
    alienBullets := [hittingBullet, hittingBullet], explosions := [] }

/-- A play-phase state with full health, one alien, and no bullets. -/
def calmState : GameState :=
  { countdown := 0, last_count := 0, last_alien_shot := 0, end_timer := 0,
    ending_music := true, game_over := 0,
    ship := ⟨⟨300, 640, 10, 10⟩, [(0, 0)], 3, 3, 0, false⟩,
    shipInGroup := true, bullets := [],
    aliens := [⟨⟨100, 100, 10, 10⟩, 0, 1⟩],
    alienBullets := [], explosions := [] }

def calmResult : FrameResult :=
  (play_step smallAssets ⟨500, noKeys, 0⟩ calmState).getD
    ⟨calmState, false, false, false⟩

/-- A play-phase state with no aliens left and health zero. -/
def C4state : GameState :=
  { countdown := 0, last_count := 0, last_alien_shot := 0, end_timer := 0,
    ending_music := true, game_over := 0,
    ship := ⟨⟨300, 640, 10, 10⟩, [(0, 0)], 3, 0, 0, false⟩,
    shipInGroup := true, bullets := [],
    aliens := [], alienBullets := [], explosions := [] }

/-- A mid-play state 1001 ticks beyond the previous alien shot, with
the end timer standing at tick 9000 and one alien bullet about to hit
the ship two frames later. -/
def C1state : GameState :=
  { countdown := 0, last_count := 0, last_alien_shot := 8999,
    end_timer := 9000, ending_music := true, game_over := 0,
    ship := ⟨⟨300, 640, 10, 10⟩, [(0, 0)], 3, 1, 0, false⟩,
    shipInGroup := true, bullets := [],
    aliens := [⟨⟨100, 100, 10, 10⟩, 0, 1⟩],
    alienBullets := [⟨⟨300, 632, 2, 2⟩, [(0, 0)]⟩], explosions := [] }

def C1frame1 : Option FrameResult :=
  play_step smallAssets ⟨10000, noKeys, 0⟩ C1state

def C1frame2 : Option FrameResult :=
  C1frame1.bind fun r => play_step smallAssets ⟨10500, noKeys, 0⟩ r.state

def C1frame3 : Option FrameResult :=
  C1frame2.bind fun r => play_step smallAssets ⟨13001, noKeys, 0⟩ r.state

/-- A terminal play state: no aliens, full health, end timer expired. -/
def C1doneState : GameState :=
  { countdown := 0, last_count := 0, last_alien_shot := 0, end_timer := 0,
    ending_music := false, game_over := 0,
    ship := ⟨⟨300, 640, 10, 10⟩, [(0, 0)], 3, 3, 0, false⟩,
    shipInGroup := true, bullets := [],
    aliens := [], alienBullets := [], explosions := [] }

def C1doneResult : FrameResult :=
  (play_step smallAssets ⟨5000, noKeys, 0⟩ C1doneState).getD
    ⟨C1doneState, false, false, false⟩

/-- A countdown state 1000 ticks past the previous decrement. -/
def C7state : GameState :=
  { countdown := 5, last_count := 0, last_alien_shot := 0, end_timer := 0,
    ending_music := true, game_over := 0,
    ship := ⟨⟨300, 640, 10, 10⟩, [(0, 0)], 3, 3, 0, false⟩,
    shipInGroup := true, bullets := [],
    aliens := [⟨⟨100, 100, 10, 10⟩, 0, 1⟩],
    alienBullets := [], explosions := [] }

theorem alienIter_add (a : Alien) (m n : Nat) :
    alienIter a (m + n) = alienIter (alienIter a m) n := by
  induction n with
  | zero => rfl
  | succ n ih => rw [← Nat.add_assoc, alienIter, alienIter, ih]

theorem alienIter_shift (a : Alien) (n : Nat) :
    alienIter a (n + 1) = alienIter (Alien.movement a) n := by
  rw [Nat.add_comm, alienIter_add]; rfl

theorem Alien.movement_relocate (x0 y0 w0 h0 : Int) (a : Alien) :
    Alien.movement (a.relocate x0 y0 w0 h0) =
      (Alien.movement a).relocate x0 y0 w0 h0 := by
  unfold Alien.movement Alien.relocate
  by_cases h : (a.move_counter + 1).natAbs > 75 <;> simp [h] <;> ring

theorem alienIter_relocate (x0 y0 w0 h0 : Int) (a : Alien) (n : Nat) :
    alienIter (a.relocate x0 y0 w0 h0) n =
      (alienIter a n).relocate x0 y0 w0 h0 := by
  induction n with
  | zero => rfl
  | succ n ih => rw [alienIter, alienIter, ih, Alien.movement_relocate]

theorem alienDirCheck_sound (d : Int) (n : Nat) :
    ∀ a : Alien, alienDirCheck d n a = true →
      ∀ k < n, (alienIter a k).move_direction = d := by
  induction n with
  | zero => intro a _ k hk; omega
  | succ n ih =>
    intro a h k hk
    rw [alienDirCheck, Bool.and_eq_true] at h
    match k with
    | 0 => exact eq_of_beq h.1
    | k + 1 =>
      rw [alienIter_shift]
      exact ih _ h.2 k (Nat.succ_lt_succ_iff.mp hk)

theorem alienDirCheck_add (d : Int) (m n : Nat) (a : Alien) :
    alienDirCheck d (m + n) a =
      (alienDirCheck d m a && alienDirCheck d n (alienIter a m)) := by
  induction m generalizing a with
  | zero => simp [alienDirCheck, alienIter]
  | succ m ih =>
    rw [Nat.succ_add, alienDirCheck, alienDirCheck, ih, alienIter_shift,
      Bool.and_assoc]

theorem AlienInv.step {a : Alien} (h : AlienInv a) :
    AlienInv (Alien.movement a) := by
  obtain ⟨⟨x, y, w, hh⟩, c, d⟩ := a
  have hm : Alien.movement ⟨⟨x, y, w, hh⟩, c, d⟩ =
      if (c + 1).natAbs > 75 then ⟨⟨x + d, y, w, hh⟩, (c + 1) * -d, -d⟩
      else ⟨⟨x + d, y, w, hh⟩, c + 1, d⟩ := rfl
  unfold AlienInv at h
  (try dsimp only at h)
  by_cases hc : (c + 1).natAbs > 75
  · rw [hm, if_pos hc]
    unfold AlienInv
    dsimp only
    rcases h with ⟨h1, h2, h3, h4⟩ | ⟨h1, h2, h3, h4⟩ | ⟨h1, h2, h3⟩ | ⟨h1, h2, h3⟩ <;>
      subst h1 <;> (try simp only [neg_neg, mul_one, mul_neg, mul_neg_one]) <;>
      (try norm_num) <;> omega
  · rw [hm, if_neg hc]
    unfold AlienInv
    dsimp only
    rcases h with ⟨h1, h2, h3, h4⟩ | ⟨h1, h2, h3, h4⟩ | ⟨h1, h2, h3⟩ | ⟨h1, h2, h3⟩ <;>
      subst h1 <;> (try simp only [neg_neg, mul_one, mul_neg, mul_neg_one]) <;>
      (try norm_num) <;> omega

theorem AlienInv.band {a : Alien} (h : AlienInv a) : a.rect.x.natAbs ≤ 76 := by
  rcases h with ⟨_, h2, h3, h4⟩ | ⟨_, h2, h3, h4⟩ | ⟨_, h2, h3⟩ | ⟨_, h2, h3⟩ <;> omega

theorem alien0_inv (n : Nat) : AlienInv (alienIter alien0 n) := by
  induction n with
  | zero => left; exact ⟨rfl, by decide, by decide, rfl⟩
  | succ n ih => exact ih.step

theorem Alien.movement_x (a : Alien) :
    (Alien.movement a).rect.x = a.rect.x + a.move_direction := by
  simp only [Alien.movement]
  split <;> rfl

theorem Alien.relocate_dir (x0 y0 w0 h0 : Int) (a : Alien) :
    (a.relocate x0 y0 w0 h0).move_direction = a.move_direction := rfl

/-- C5, corrected. The alien does not reverse its direction of travel
every 75 frames: starting from its spawn state it travels 76
consecutive frames in direction 1, and from the state after 76 update
calls it travels 152 consecutive frames in direction -1, from offset
76 down to offset -76 (alienDirCheck d n a is true exactly when the
direction of the n successive states starting at a is d). -/
theorem C5_counterexample :
    alienDirCheck 1 76 alien0 = true ∧
    alienDirCheck (-1) 152 (alienIter alien0 76) = true ∧
    (alienIter alien0 76).rect.x = 76 ∧
    (alienIter alien0 228).rect.x = -76 := by
  have h76 : alienIter alien0 76 =
      ⟨⟨76, 0, 0, 0⟩, -76, -1⟩ := by decide
  have h152 : alienIter (⟨⟨76, 0, 0, 0⟩, -76, -1⟩ : Alien) 76 =
      ⟨⟨0, 0, 0, 0⟩, 0, -1⟩ := by decide
  have h228 : alienIter (⟨⟨0, 0, 0, 0⟩, 0, -1⟩ : Alien) 76 =
      ⟨⟨-76, 0, 0, 0⟩, 76, 1⟩ := by decide
  refine ⟨by decide, ?_, by rw [h76], ?_⟩
  · rw [h76, show (152 : Nat) = 76 + 76 from rfl, alienDirCheck_add, h152]
    rw [show alienDirCheck (-1) 76 (⟨⟨76, 0, 0, 0⟩, -76, -1⟩ : Alien) = true from by decide]
    rw [show alienDirCheck (-1) 76 (⟨⟨0, 0, 0, 0⟩, 0, -1⟩ : Alien) = true from by decide]
    rfl
  · rw [show (228 : Nat) = 76 + 76 + 76 from rfl, alienIter_add, alienIter_add,
      h76, h152, h228]

/-- C5, amended. Over every sequence of update calls a spawned alien
moves by exactly its current direction (1 or -1) per frame, and its
horizontal offset from the spawn position stays within 76 pixels; the
reversal cadence is governed by the counter magnitude exceeding 75
(first reversal after 76 frames, then legs of 152 frames), not by a
reversal every 75 frames. -/
theorem C5_amended (x0 y0 w0 h0 : Int) (n : Nat) :
    ((alienIter ⟨⟨x0, y0, w0, h0⟩, 0, 1⟩ n).rect.x - x0).natAbs ≤ 76 ∧
    (alienIter ⟨⟨x0, y0, w0, h0⟩, 0, 1⟩ (n + 1)).rect.x =
      (alienIter ⟨⟨x0, y0, w0, h0⟩, 0, 1⟩ n).rect.x +
        (alienIter ⟨⟨x0, y0, w0, h0⟩, 0, 1⟩ n).move_direction ∧
    ((alienIter ⟨⟨x0, y0, w0, h0⟩, 0, 1⟩ n).move_direction = 1 ∨
      (alienIter ⟨⟨x0, y0, w0, h0⟩, 0, 1⟩ n).move_direction = -1) := by
  have hre : (⟨⟨x0, y0, w0, h0⟩, 0, 1⟩ : Alien) = alien0.relocate x0 y0 w0 h0 := by
    simp [Alien.relocate, alien0]
  have hinv := alien0_inv n
  refine ⟨?_, alienIter.eq_2 _ n ▸ Alien.movement_x _, ?_⟩
  · rw [hre, alienIter_relocate]
    have hband := (alien0_inv n).band
    unfold Alien.relocate
    dsimp only
    omega
  · rw [hre, alienIter_relocate, Alien.relocate_dir]
    rcases hinv with ⟨h1, _⟩ | ⟨h1, _⟩ | ⟨h1, _⟩ | ⟨h1, _⟩ <;> simp [h1]

/-! ### Explosion lifecycle -/

theorem explosionIter_stays_none (e : Explosion) (n : Nat)
    (h : explosionIter e n = none) :
    ∀ m : Nat, explosionIter e (n + m) = none := by
  intro m
  induction m with
  | zero => exact h
  | succ m ih => rw [← Nat.add_assoc, explosionIter, ih]; rfl

/-- C9, confirmed. A fresh explosion of any of the size classes the
game creates (1, 2 and 3) shows frame index min (k / EXPLOSION_SPEED) 4
after k update calls for every k < 15 — the five frames in order, never
moving backwards, reaching the last frame at update 12 — is still alive
through update 14, and removes itself at update 15 = 5 * EXPLOSION_SPEED
and at every update thereafter, never to be reused. -/
theorem C9_explosion_life :
    (∀ k < 15,
      (explosionIter (freshExplosion 1) k).map Explosion.index =
        some (min (k / EXPLOSION_SPEED) 4) ∧
      (explosionIter (freshExplosion 2) k).map Explosion.index =
        some (min (k / EXPLOSION_SPEED) 4) ∧
      (explosionIter (freshExplosion 3) k).map Explosion.index =
        some (min (k / EXPLOSION_SPEED) 4)) ∧
    (∀ m : Nat,
      explosionIter (freshExplosion 1) (15 + m) = none ∧
      explosionIter (freshExplosion 2) (15 + m) = none ∧
      explosionIter (freshExplosion 3) (15 + m) = none) := by
  constructor
  · decide
  · intro m
    exact ⟨explosionIter_stays_none _ 15 (by decide) m,
      explosionIter_stays_none _ 15 (by decide) m,
      explosionIter_stays_none _ 15 (by decide) m⟩

/-- Witness for C9_explosion_life at k = 14 and m = 0: the size 2
explosion is on its last frame at update 14 and killed at update 15. -/
theorem C9_explosion_life_witness :
    (explosionIter (freshExplosion 2) 14).map Explosion.index = some 4 ∧
    explosionIter (freshExplosion 2) (15 + 0) = none :=
  ⟨(C9_explosion_life.1 14 (by decide)).2.1, (C9_explosion_life.2 0).2.1⟩

/-! ### Shooting guard of the spaceship -/

/-- C10, confirmed. Spaceship._shoot creates a bullet exactly when the
space key is held, more than PLAYER_COOLDOWN ticks have passed since
the last shot, and the remaining health is positive; a ship with
nonpositive health is left unchanged and fires nothing. -/
theorem C10_dead_ship_never_fires (A : Assets) (k : Keys) (now : Nat)
    (s : Spaceship) :
    ((s.shoot A k now).2.isSome = true ↔
      (k.space = true ∧ now - s.last_shot > PLAYER_COOLDOWN ∧
        0 < s.health_remaining)) ∧
    (s.health_remaining ≤ 0 → s.shoot A k now = (s, none)) := by
  unfold Spaceship.shoot
  constructor
  · split
    · next h => simp only [Option.isSome_some, true_iff]; exact ⟨by simp [h.1], h.2⟩
    · next h =>
      simp only [Option.isSome_none, Bool.false_eq_true, false_iff]
      intro hx
      exact h ⟨hx.1, hx.2.1, hx.2.2⟩
  · intro h
    split
    · next hx => omega
    · rfl

/-- Witness for C10_dead_ship_never_fires at a concrete dead ship with
the space key held and the cooldown long elapsed. -/
theorem C10_dead_ship_never_fires_witness :
    ((Spaceship.shoot
        ⟨20, 20, [(0, 0)], 2, 2, 2, 2, [(0, 0)]⟩ ⟨false, false, true⟩ 5000
        ⟨⟨290, 630, 20, 20⟩, [(0, 0)], 3, 0, 0, false⟩).2.isSome = true ↔
      ((true : Bool) = true ∧ 5000 - 0 > PLAYER_COOLDOWN ∧ (0 : Int) < 0)) ∧
    ((0 : Int) ≤ 0 →
      Spaceship.shoot ⟨20, 20, [(0, 0)], 2, 2, 2, 2, [(0, 0)]⟩
        ⟨false, false, true⟩ 5000 ⟨⟨290, 630, 20, 20⟩, [(0, 0)], 3, 0, 0, false⟩ =
        (⟨⟨290, 630, 20, 20⟩, [(0, 0)], 3, 0, 0, false⟩, none)) :=
  C10_dead_ship_never_fires ⟨20, 20, [(0, 0)], 2, 2, 2, 2, [(0, 0)]⟩
    ⟨false, false, true⟩ 5000 ⟨⟨290, 630, 20, 20⟩, [(0, 0)], 3, 0, 0, false⟩

/-! ### Clamping of the horizontal movement of the spaceship -/

/-- C8, corrected. The move step does not keep the rect inside the
exact screen bounds: a ship whose rect satisfies 0 ≤ left and
right ≤ SCREEN_WIDTH can end the move step with left = -2 < 0, because
the guard only requires left > 0 before subtracting PLAYER_SPEED = 5. -/
theorem C8_counterexample :
    (0 ≤ C8ship.rect.left ∧ C8ship.rect.right ≤ SCREEN_WIDTH) ∧
    (Spaceship.move ⟨true, false, false⟩ C8ship).rect.left = -2 := by decide

/-- C8, amended. The move step keeps the rect within the screen bounds
loosened by PLAYER_SPEED - 1 = 4 pixels on each side: if
1 - PLAYER_SPEED ≤ left and right ≤ SCREEN_WIDTH - 1 + PLAYER_SPEED
hold before a move step, they hold after it, for every held key
combination. -/
theorem C8_amended (k : Keys) (s : Spaceship)
    (h1 : 1 - PLAYER_SPEED ≤ s.rect.left)
    (h2 : s.rect.right ≤ SCREEN_WIDTH - 1 + PLAYER_SPEED) :
    1 - PLAYER_SPEED ≤ (s.move k).rect.left ∧
      (s.move k).rect.right ≤ SCREEN_WIDTH - 1 + PLAYER_SPEED := by
  obtain ⟨⟨x, y, w, hh⟩, m, hst, hre, ls, ec⟩ := s
  simp only [Spaceship.move, Rect.left, Rect.right, PLAYER_SPEED,
    SCREEN_WIDTH] at h1 h2 ⊢
  split <;> split <;> (try dsimp only at *) <;> omega

/-- Witness for C8_amended: a centered ship with both keys held. -/
theorem C8_amended_witness :
    1 - PLAYER_SPEED ≤
      (Spaceship.move ⟨true, true, false⟩
        ⟨⟨290, 630, 20, 20⟩, [(0, 0)], 3, 3, 0, false⟩).rect.left ∧
    (Spaceship.move ⟨true, true, false⟩
        ⟨⟨290, 630, 20, 20⟩, [(0, 0)], 3, 3, 0, false⟩).rect.right ≤
      SCREEN_WIDTH - 1 + PLAYER_SPEED :=
  C8_amended ⟨true, true, false⟩ ⟨⟨290, 630, 20, 20⟩, [(0, 0)], 3, 3, 0, false⟩
    (by decide) (by decide)

/-! ### Player bullet collision with the alien group -/

/-- C2, corrected. A single player bullet can remove two aliens in the
same frame: spritecollide with dokill = True removes every overlapping
alien, so a bullet whose rect overlaps two aliens leaves the alien
group empty while only one explosion is spawned. -/
theorem C2_counterexample :
    Rect.colliderect C2bullet.rect C2alien1.rect = true ∧
    Rect.colliderect C2bullet.rect C2alien2.rect = true ∧
    (C2bullet.collisionStep [C2alien1, C2alien2] []).2.1 = [] ∧
    (C2bullet.collisionStep [C2alien1, C2alien2] []).1 = none ∧
    (C2bullet.collisionStep [C2alien1, C2alien2] []).2.2 = [freshExplosion 2] := by
  decide

/-- C2, amended. The collision step of a player bullet overlapping at
least one alien removes the bullet, adds exactly one size 2 explosion,
and removes from the alien group exactly the aliens whose rects overlap
the bullet — every overlapping alien, which can be more than one. -/
theorem C2_amended (b : Bullet) (aliens : List Alien) (ex : List Explosion)
    (h : ∃ a ∈ aliens, Rect.colliderect b.rect a.rect = true) :
    (b.collisionStep aliens ex).1 = none ∧
    (b.collisionStep aliens ex).2.2 = ex ++ [freshExplosion 2] ∧
    (∀ a ∈ aliens, Rect.colliderect b.rect a.rect = true →
      a ∉ (b.collisionStep aliens ex).2.1) ∧
    (∀ a ∈ aliens, Rect.colliderect b.rect a.rect = false →
      a ∈ (b.collisionStep aliens ex).2.1) := by
  obtain ⟨a0, ha0, hc0⟩ := h
  have hne : (aliens.filter fun a => Rect.colliderect b.rect a.rect) ≠ [] := by
    intro hemp
    have : a0 ∈ aliens.filter fun a => Rect.colliderect b.rect a.rect :=
      List.mem_filter.mpr ⟨ha0, hc0⟩
    rw [hemp] at this
    exact absurd this (List.not_mem_nil a0)
  unfold Bullet.collisionStep
  rw [if_neg (by simpa [List.isEmpty_iff] using hne)]
  refine ⟨rfl, rfl, ?_, ?_⟩
  · intro a _ hcol hmem
    have := (List.mem_filter.mp hmem).2
    simp [hcol] at this
  · intro a hmem hcol
    exact List.mem_filter.mpr ⟨hmem, by simp [hcol]⟩

/-- Witness for C2_amended at a bullet overlapping one of two aliens. -/
theorem C2_amended_witness :
    (C2bullet.collisionStep [C2alien1] []).1 = none ∧
    (C2bullet.collisionStep [C2alien1] []).2.2 = [] ++ [freshExplosion 2] ∧
    (∀ a ∈ [C2alien1], Rect.colliderect C2bullet.rect a.rect = true →
      a ∉ (C2bullet.collisionStep [C2alien1] []).2.1) ∧
    (∀ a ∈ [C2alien1], Rect.colliderect C2bullet.rect a.rect = false →
      a ∈ (C2bullet.collisionStep [C2alien1] []).2.1) :=
  C2_amended C2bullet [C2alien1] [] ⟨C2alien1, by decide, by decide⟩

/-! ### Alien bullet collision with the ship -/

/-- C6, confirmed. The collision step of an alien bullet whose mask
overlaps the mask of the ship while the ship is in the spaceship group
removes exactly that bullet, decrements the health of the ship by
exactly one (leaving its rect and mask untouched), keeps the ship in
its group (dokill is False), and adds exactly one size 1 explosion. -/
theorem C6_alien_bullet_hit (b : AlienBullet) (ship : Spaceship)
    (ex : List Explosion)
    (h : collide_mask b.rect b.mask ship.rect ship.mask = true) :
    (b.collisionStep ship true ex).1 = none ∧
    (b.collisionStep ship true ex).2.1.health_remaining =
      ship.health_remaining - 1 ∧
    (b.collisionStep ship true ex).2.1.rect = ship.rect ∧
    (b.collisionStep ship true ex).2.2.1 = true ∧
    (b.collisionStep ship true ex).2.2.2 = ex ++ [freshExplosion 1] := by
  unfold AlienBullet.collisionStep
  rw [if_pos ⟨rfl, h⟩]
  exact ⟨rfl, rfl, rfl, rfl, rfl⟩

/-- Witness for C6_alien_bullet_hit: a bullet and ship sharing the
pixel (300, 640). -/
theorem C6_alien_bullet_hit_witness :
    ((AlienBullet.mk ⟨300, 640, 2, 2⟩ [(0, 0)]).collisionStep
        ⟨⟨300, 640, 20, 20⟩, [(0, 0)], 3, 3, 0, false⟩ true []).1 = none ∧
    ((AlienBullet.mk ⟨300, 640, 2, 2⟩ [(0, 0)]).collisionStep
        ⟨⟨300, 640, 20, 20⟩, [(0, 0)], 3, 3, 0, false⟩ true []).2.1.health_remaining =
      (3 : Int) - 1 ∧
    ((AlienBullet.mk ⟨300, 640, 2, 2⟩ [(0, 0)]).collisionStep
        ⟨⟨300, 640, 20, 20⟩, [(0, 0)], 3, 3, 0, false⟩ true []).2.1.rect =
      ⟨300, 640, 20, 20⟩ ∧
    ((AlienBullet.mk ⟨300, 640, 2, 2⟩ [(0, 0)]).collisionStep
        ⟨⟨300, 640, 20, 20⟩, [(0, 0)], 3, 3, 0, false⟩ true []).2.2.1 = true ∧
    ((AlienBullet.mk ⟨300, 640, 2, 2⟩ [(0, 0)]).collisionStep
        ⟨⟨300, 640, 20, 20⟩, [(0, 0)], 3, 3, 0, false⟩ true []).2.2.2 =
      [] ++ [freshExplosion 1] :=
  C6_alien_bullet_hit (AlienBullet.mk ⟨300, 640, 2, 2⟩ [(0, 0)])
    ⟨⟨300, 640, 20, 20⟩, [(0, 0)], 3, 3, 0, false⟩ [] (by decide)

/-! ### Preservation lemmas for the ship through one frame -/

theorem Spaceship.move_health (k : Keys) (s : Spaceship) :
    (s.move k).health_remaining = s.health_remaining := rfl

theorem Spaceship.move_mask (k : Keys) (s : Spaceship) :
    (s.move k).mask = s.mask := rfl

theorem Spaceship.shoot_health (A : Assets) (k : Keys) (now : Nat)
    (s : Spaceship) :
    (s.shoot A k now).1.health_remaining = s.health_remaining := by
  unfold Spaceship.shoot; split <;> rfl

theorem Spaceship.shoot_rect (A : Assets) (k : Keys) (now : Nat)
    (s : Spaceship) : (s.shoot A k now).1.rect = s.rect := by
  unfold Spaceship.shoot; split <;> rfl

theorem Spaceship.shoot_mask (A : Assets) (k : Keys) (now : Nat)
    (s : Spaceship) : (s.shoot A k now).1.mask = s.mask := by
  unfold Spaceship.shoot; split <;> rfl

theorem Spaceship.updateHealthBar_health (s : Spaceship) (g : Bool)
    (ex : List Explosion) :
    (s.updateHealthBar g ex).1.health_remaining = s.health_remaining := by
  unfold Spaceship.updateHealthBar
  split
  · rfl
  · split <;> rfl

theorem Spaceship.updateHealthBar_rect (s : Spaceship) (g : Bool)
    (ex : List Explosion) : (s.updateHealthBar g ex).1.rect = s.rect := by
  unfold Spaceship.updateHealthBar
  split
  · rfl
  · split <;> rfl

theorem Spaceship.updateHealthBar_mask (s : Spaceship) (g : Bool)
    (ex : List Explosion) : (s.updateHealthBar g ex).1.mask = s.mask := by
  unfold Spaceship.updateHealthBar
  split
  · rfl
  · split <;> rfl

theorem Spaceship.updateHealthBar_flag (s : Spaceship) (g : Bool)
    (ex : List Explosion) :
    (s.updateHealthBar g ex).2.1 = if 0 < s.health_remaining then g else false := by
  unfold Spaceship.updateHealthBar
  split <;> rfl

theorem Spaceship.update_health (A : Assets) (k : Keys) (now : Nat)
    (s : Spaceship) (g : Bool) (bl : List Bullet) (ex : List Explosion) :
    (Spaceship.update A k now s g bl ex).1.health_remaining =
      s.health_remaining := by
  simp only [Spaceship.update]
  rw [Spaceship.updateHealthBar_health, Spaceship.shoot_health,
    Spaceship.move_health]

theorem Spaceship.update_rect (A : Assets) (k : Keys) (now : Nat)
    (s : Spaceship) (g : Bool) (bl : List Bullet) (ex : List Explosion) :
    (Spaceship.update A k now s g bl ex).1.rect = (s.move k).rect := by
  simp only [Spaceship.update]
  rw [Spaceship.updateHealthBar_rect, Spaceship.shoot_rect]

theorem Spaceship.update_mask (A : Assets) (k : Keys) (now : Nat)
    (s : Spaceship) (g : Bool) (bl : List Bullet) (ex : List Explosion) :
    (Spaceship.update A k now s g bl ex).1.mask = s.mask := by
  simp only [Spaceship.update]
  rw [Spaceship.updateHealthBar_mask, Spaceship.shoot_mask,
    Spaceship.move_mask]

theorem Spaceship.update_flag (A : Assets) (k : Keys) (now : Nat)
    (s : Spaceship) (g : Bool) (bl : List Bullet) (ex : List Explosion) :
    (Spaceship.update A k now s g bl ex).2.1 =
      if 0 < s.health_remaining then g else false := by
  simp only [Spaceship.update]
  rw [Spaceship.updateHealthBar_flag, Spaceship.shoot_health,
    Spaceship.move_health]

/-! ### Lemmas on the alien bullet group pass -/

theorem AlienBullet.updateOne_rect (b : AlienBullet) (ship : Spaceship)
    (g : Bool) (ex : List Explosion) :
    (b.updateOne ship g ex).2.1.rect = ship.rect := by
  unfold AlienBullet.updateOne AlienBullet.collisionStep
  dsimp only
  split <;> rfl

theorem AlienBullet.updateOne_mask (b : AlienBullet) (ship : Spaceship)
    (g : Bool) (ex : List Explosion) :
    (b.updateOne ship g ex).2.1.mask = ship.mask := by
  unfold AlienBullet.updateOne AlienBullet.collisionStep
  dsimp only
  split <;> rfl

theorem AlienBullet.updateOne_flag (b : AlienBullet) (ship : Spaceship)
    (g : Bool) (ex : List Explosion) :
    (b.updateOne ship g ex).2.2.1 = g := by
  unfold AlienBullet.updateOne AlienBullet.collisionStep
  dsimp only
  split <;> rfl

theorem AlienBullet.updateOne_health (b : AlienBullet) (ship : Spaceship)
    (g : Bool) (ex : List Explosion) :
    ship.health_remaining - 1 ≤ (b.updateOne ship g ex).2.1.health_remaining ∧
      (b.updateOne ship g ex).2.1.health_remaining ≤ ship.health_remaining := by
  unfold AlienBullet.updateOne AlienBullet.collisionStep
  dsimp only
  split <;> dsimp only <;> omega

theorem AlienBullet.updateOne_nohit (b : AlienBullet) (ship : Spaceship)
    (g : Bool) (ex : List Explosion)
    (h : b.hitsRM ship.rect ship.mask = false) :
    (b.updateOne ship g ex).2.1 = ship := by
  unfold AlienBullet.updateOne AlienBullet.collisionStep
  dsimp only
  rw [if_neg]
  intro hc
  unfold AlienBullet.hitsRM at h
  exact absurd hc.2 (by simp [h])

theorem AlienBullet.updateOne_nogroup (b : AlienBullet) (ship : Spaceship)
    (ex : List Explosion) :
    (b.updateOne ship false ex).2.1 = ship := by
  unfold AlienBullet.updateOne AlienBullet.collisionStep
  dsimp only
  rw [if_neg]
  intro hc
  exact Bool.false_ne_true hc.1

theorem abgu_rect (bs : List AlienBullet) (ship : Spaceship) (g : Bool)
    (ex : List Explosion) :
    (alienBulletGroupUpdate bs ship g ex).2.1.rect = ship.rect := by
  induction bs generalizing ship g ex with
  | nil => rfl
  | cons b bs ih =>
    simp only [alienBulletGroupUpdate]
    rw [ih, AlienBullet.updateOne_rect]

theorem abgu_mask (bs : List AlienBullet) (ship : Spaceship) (g : Bool)
    (ex : List Explosion) :
    (alienBulletGroupUpdate bs ship g ex).2.1.mask = ship.mask := by
  induction bs generalizing ship g ex with
  | nil => rfl
  | cons b bs ih =>
    simp only [alienBulletGroupUpdate]
    rw [ih, AlienBullet.updateOne_mask]

theorem abgu_flag (bs : List AlienBullet) (ship : Spaceship) (g : Bool)
    (ex : List Explosion) :
    (alienBulletGroupUpdate bs ship g ex).2.2.1 = g := by
  induction bs generalizing ship g ex with
  | nil => rfl
  | cons b bs ih =>
    simp only [alienBulletGroupUpdate]
    rw [ih, AlienBullet.updateOne_flag]

theorem abgu_health_le (bs : List AlienBullet) (ship : Spaceship) (g : Bool)
    (ex : List Explosion) :
    (alienBulletGroupUpdate bs ship g ex).2.1.health_remaining ≤
      ship.health_remaining := by
  induction bs generalizing ship g ex with
  | nil => exact le_refl _
  | cons b bs ih =>
    simp only [alienBulletGroupUpdate]
    exact le_trans (ih _ _ _) (AlienBullet.updateOne_health b ship g ex).2

theorem abgu_nogroup (bs : List AlienBullet) (ship : Spaceship)
    (ex : List Explosion) :
    (alienBulletGroupUpdate bs ship false ex).2.1 = ship := by
  induction bs generalizing ship ex with
  | nil => rfl
  | cons b bs ih =>
    simp only [alienBulletGroupUpdate]
    rw [AlienBullet.updateOne_flag, AlienBullet.updateOne_nogroup, ih]

theorem abgu_health_ge (bs : List AlienBullet) (ship : Spaceship) (g : Bool)
    (ex : List Explosion) :
    ship.health_remaining -
        ((bs.filter fun b => b.hitsRM ship.rect ship.mask).length : Int) ≤
      (alienBulletGroupUpdate bs ship g ex).2.1.health_remaining := by
  induction bs generalizing ship g ex with
  | nil => simp [alienBulletGroupUpdate]
  | cons b bs ih =>
    simp only [alienBulletGroupUpdate]
    by_cases hb : b.hitsRM ship.rect ship.mask = true
    · have hfl : ((b :: bs).filter fun x => x.hitsRM ship.rect ship.mask).length =
          (bs.filter fun x => x.hitsRM ship.rect ship.mask).length + 1 := by
        simp [List.filter_cons, hb]
      rw [hfl]
      have h1 := (AlienBullet.updateOne_health b ship g ex).1
      have h2 := ih ((b.updateOne ship g ex).2.1) ((b.updateOne ship g ex).2.2.1)
        ((b.updateOne ship g ex).2.2.2)
      rw [AlienBullet.updateOne_rect, AlienBullet.updateOne_mask] at h2
      push_cast at h2 ⊢
      omega
    · have hb2 : b.hitsRM ship.rect ship.mask = false := by
        simpa using hb
      have hfl : ((b :: bs).filter fun x => x.hitsRM ship.rect ship.mask).length =
          (bs.filter fun x => x.hitsRM ship.rect ship.mask).length := by
        simp [List.filter_cons, hb2]
      rw [hfl, AlienBullet.updateOne_nohit b ship g ex hb2]
      exact ih ship _ _

/-! ### Health of the ship across one frame -/

theorem frameShip_health_le (A : Assets) (inp : FrameInput) (s : GameState)
    (ex0 : List Explosion) :
    (frameShip A inp s ex0).health_remaining ≤ s.ship.health_remaining := by
  unfold frameShip
  refine le_trans (abgu_health_le _ _ _ _) ?_
  rw [Spaceship.update_health]

theorem frameShip_health_nonneg (A : Assets) (inp : FrameInput)
    (s : GameState) (ex0 : List Explosion)
    (h0 : 0 ≤ s.ship.health_remaining)
    (hg : s.shipInGroup = true → 1 ≤ s.ship.health_remaining)
    (hone : (s.alienBullets.filter fun b =>
        b.hitsRM (s.ship.move inp.keys).rect s.ship.mask).length ≤ 1) :
    0 ≤ (frameShip A inp s ex0).health_remaining := by
  unfold frameShip
  dsimp only
  by_cases hgrp :
      (s.ship.update A inp.keys inp.now s.shipInGroup s.bullets ex0).2.1 = true
  · have hge := abgu_health_ge s.alienBullets
      (s.ship.update A inp.keys inp.now s.shipInGroup s.bullets ex0).1
      (s.ship.update A inp.keys inp.now s.shipInGroup s.bullets ex0).2.1
      (bulletGroupUpdate
        (s.ship.update A inp.keys inp.now s.shipInGroup s.bullets ex0).2.2.1
        s.aliens
        (s.ship.update A inp.keys inp.now s.shipInGroup s.bullets ex0).2.2.2).2.2
    rw [Spaceship.update_rect, Spaceship.update_mask,
      Spaceship.update_health] at hge
    rw [Spaceship.update_flag] at hgrp
    have hh : 1 ≤ s.ship.health_remaining := by
      by_cases hpos : 0 < s.ship.health_remaining
      · rw [if_pos hpos] at hgrp
        exact hg hgrp
      · rw [if_neg hpos] at hgrp
        exact absurd hgrp (by simp)
    have hlen : ((s.alienBullets.filter fun b =>
        b.hitsRM (s.ship.move inp.keys).rect s.ship.mask).length : Int) ≤ 1 := by
      exact_mod_cast hone
    omega
  · have hgrp2 :
        (s.ship.update A inp.keys inp.now s.shipInGroup s.bullets ex0).2.1 = false := by
      simpa using hgrp
    rw [hgrp2, abgu_nogroup, Spaceship.update_health]
    exact h0

/-! ### Characterization of one play frame -/

theorem countdownPhase_state (inp : FrameInput) (s : GameState)
    (ex0 : List Explosion) :
    (countdownPhase inp s ex0).gameOver = false ∧
    (countdownPhase inp s ex0).winShown = false ∧
    (countdownPhase inp s ex0).lossShown = false ∧
    (countdownPhase inp s ex0).state.ship = s.ship ∧
    (countdownPhase inp s ex0).state.shipInGroup = s.shipInGroup ∧
    (countdownPhase inp s ex0).state.bullets = s.bullets ∧
    (countdownPhase inp s ex0).state.aliens = s.aliens ∧
    (countdownPhase inp s ex0).state.alienBullets = s.alienBullets ∧
    (countdownPhase inp s ex0).state.countdown =
      (if inp.now - s.last_count > 1000 then s.countdown - 1 else s.countdown) ∧
    (countdownPhase inp s ex0).state.last_count =
      (if inp.now - s.last_count > 1000 then inp.now else s.last_count) ∧
    (countdownPhase inp s ex0).state.end_timer = inp.now := by
  by_cases h : inp.now - s.last_count > 1000 <;> simp [countdownPhase, h]

theorem playPhase_cases (A : Assets) (inp : FrameInput) (s : GameState)
    (ex0 : List Explosion) (r : FrameResult)
    (hr : playPhase A inp s ex0 = some r) :
    r.state.ship = frameShip A inp s ex0 ∧
    ((fireCondition A inp s ex0 ∧ r.gameOver = false ∧ r.winShown = false ∧
        r.lossShown = false ∧ r.state.end_timer = inp.now ∧
        r.state.last_alien_shot = inp.now) ∨
      (¬ fireCondition A inp s ex0 ∧
        (r.gameOver = true ↔ inp.now - s.end_timer > 3000) ∧
        (r.winShown = true ↔ s.aliens.length = 0) ∧
        (r.lossShown = true ↔ (frameShip A inp s ex0).health_remaining = 0) ∧
        r.state.end_timer = s.end_timer ∧
        r.state.last_alien_shot = s.last_alien_shot)) := by
  unfold playPhase at hr
  dsimp only at hr
  split at hr
  · next hcond =>
    split at hr
    · exact absurd hr (by simp)
    · next atk heq =>
      have hrr := Option.some.inj hr
      subst hrr
      refine ⟨rfl, Or.inl ⟨hcond, rfl, rfl, rfl, rfl, rfl⟩⟩
  · next hcond =>
    have hrr := Option.some.inj hr
    subst hrr
    refine ⟨rfl, Or.inr ⟨hcond, ?_, ?_, ?_, rfl, rfl⟩⟩
    · exact decide_eq_true_iff
    · exact decide_eq_true_iff
    · exact decide_eq_true_iff

/-! ### Claim theorems on whole frames -/

/-- C3, corrected. Health is not bounded below by zero: on a frame in
which two alien bullets mask-overlap the ship simultaneously, health
drops from 1 to -1, because the ship is only removed from its group by
the spaceship update of the following frame and each bullet of the
group pass decrements health while the ship is still in the group. -/
theorem C3_counterexample :
    C3state.ship.health_remaining = 1 ∧
    hittingBullet.hitsRM (C3state.ship.move noKeys).rect C3state.ship.mask = true ∧
    (play_step smallAssets ⟨500, noKeys, 0⟩ C3state).map
      (fun r => r.state.ship.health_remaining) = some (-1) := by decide

/-- C3, amended. Across every frame the health of the ship is
monotonically non-increasing, and it stays nonnegative provided at most
one alien bullet mask-overlaps the (moved) ship on that frame, the
health was nonnegative, and a ship still in its group had health at
least 1 (both reachability invariants of real runs: the spaceship
update of the frame after health reached zero removes the ship from
its group before any further alien bullet pass). With two or more
overlapping bullets in one frame health can become negative. -/
theorem C3_amended (A : Assets) (inp : FrameInput) (s : GameState)
    (r : FrameResult) (hr : play_step A inp s = some r)
    (h0 : 0 ≤ s.ship.health_remaining)
    (hg : s.shipInGroup = true → 1 ≤ s.ship.health_remaining)
    (hone : (s.alienBullets.filter fun b =>
        b.hitsRM (s.ship.move inp.keys).rect s.ship.mask).length ≤ 1) :
    r.state.ship.health_remaining ≤ s.ship.health_remaining ∧
      0 ≤ r.state.ship.health_remaining := by
  unfold play_step at hr
  split at hr
  · have h := playPhase_cases A inp s (frameExps s) r hr
    rw [h.1]
    exact ⟨frameShip_health_le A inp s (frameExps s),
      frameShip_health_nonneg A inp s (frameExps s) h0 hg hone⟩
  · have hrr := Option.some.inj hr
    subst hrr
    rw [(countdownPhase_state inp s (frameExps s)).2.2.2.1]
    exact ⟨le_refl _, h0⟩

/-- Witness for C3_amended on a calm frame with no alien bullets. -/
theorem C3_amended_witness :
    calmResult.state.ship.health_remaining ≤
        calmState.ship.health_remaining ∧
      0 ≤ calmResult.state.ship.health_remaining :=
  C3_amended smallAssets ⟨500, noKeys, 0⟩ calmState calmResult
    (by decide) (by decide) (fun _ => by decide) (by decide)

/-- C4, corrected. The WIN message is shown whenever the pre-update
alien count is zero, even on a frame on which the health of the ship is
zero, where the GAME OVER message is shown as well: WON is signalled
with nonpositive health, against the claim. -/
theorem C4_counterexample :
    (play_step smallAssets ⟨100, noKeys, 0⟩ C4state).map
      FrameResult.winShown = some true ∧
    (play_step smallAssets ⟨100, noKeys, 0⟩ C4state).map
      FrameResult.lossShown = some true ∧
    (play_step smallAssets ⟨100, noKeys, 0⟩ C4state).map
      (fun r => r.state.ship.health_remaining) = some 0 := by decide

/-- C4, amended. On every play frame the WIN text is shown exactly when
the pre-update alien count is zero — regardless of health, so WIN and
GAME OVER can be shown together — and the GAME OVER text is shown
exactly when the post-update health is exactly zero (a negative health
never triggers it). -/
theorem C4_amended (A : Assets) (inp : FrameInput) (s : GameState)
    (r : FrameResult) (hc : s.countdown = 0)
    (hr : play_step A inp s = some r) :
    (r.winShown = true ↔ s.aliens.length = 0) ∧
    (r.lossShown = true ↔ r.state.ship.health_remaining = 0) := by
  unfold play_step at hr
  rw [if_pos hc] at hr
  have h := playPhase_cases A inp s (frameExps s) r hr
  rcases h.2 with ⟨hfc, _, hw, hl, _, _⟩ | ⟨hfc, _, hw, hl, _, _⟩
  · constructor
    · rw [hw]
      simp only [Bool.false_eq_true, false_iff]
      exact hfc.1
    · rw [hl, h.1]
      simp only [Bool.false_eq_true, false_iff]
      exact hfc.2.1
  · exact ⟨hw, by rw [h.1]; exact hl⟩

/-- Witness for C4_amended on a calm frame: one alien left, health 3,
no message shown. -/
theorem C4_amended_witness :
    (calmResult.winShown = true ↔ calmState.aliens.length = 0) ∧
    (calmResult.lossShown = true ↔
      calmResult.state.ship.health_remaining = 0) :=
  C4_amended smallAssets ⟨500, noKeys, 0⟩ calmState calmResult rfl (by decide)

/-! ### End-of-game timing -/

/-- C1, corrected. play_step does not first return True 3000 ticks
after the frame on which the terminal state was entered: in this run an
alien fires at tick 10000 (resetting end_timer), the terminal state is
entered at tick 10500 (health reaches zero, GAME OVER is shown), and
play_step already returns True at tick 13001 — before
10500 + 3000 = 13500 — because the 3000 tick delay is measured from
end_timer, which was last reset at the firing frame. -/
theorem C1_counterexample :
    C1frame1.map FrameResult.gameOver = some false ∧
    C1frame1.map (fun r => r.state.end_timer) = some 10000 ∧
    C1frame2.map FrameResult.lossShown = some true ∧
    C1frame2.map (fun r => r.state.ship.health_remaining) = some 0 ∧
    C1frame2.map FrameResult.gameOver = some false ∧
    C1frame3.map FrameResult.gameOver = some true ∧
    13001 < 10500 + 3000 := by decide

/-- C1, amended. On every play frame (with the invariant
last_alien_shot ≤ end_timer, maintained because both are reset
together on firing frames) play_step returns True exactly when the
alien firing condition fails and more than 3000 ticks have elapsed
since end_timer was last reset — the last frame on which an alien fired
or the countdown ran, which is at or before terminal entry — and a True
return implies the pre-update alien count is zero or the post-update
health is zero, so True is never returned before a terminal state is
entered. -/
theorem C1_amended (A : Assets) (inp : FrameInput) (s : GameState)
    (r : FrameResult) (hc : s.countdown = 0)
    (hts : s.last_alien_shot ≤ s.end_timer)
    (hr : play_step A inp s = some r) :
    (r.gameOver = true ↔
      (¬ fireCondition A inp s (frameExps s) ∧ s.end_timer + 3000 < inp.now)) ∧
    (r.gameOver = true →
      s.aliens.length = 0 ∨ r.state.ship.health_remaining = 0) := by
  unfold play_step at hr
  rw [if_pos hc] at hr
  have h := playPhase_cases A inp s (frameExps s) r hr
  rcases h.2 with ⟨hfc, hgo, _, _, _, _⟩ | ⟨hfc, hgo, _, _, _, _⟩
  · rw [hgo]
    constructor
    · simp only [Bool.false_eq_true, false_iff]
      intro hx
      exact hx.1 hfc
    · intro hx
      exact absurd hx (by simp)
  · constructor
    · rw [hgo]
      constructor
      · intro hx
        exact ⟨hfc, by omega⟩
      · intro hx
        omega
    · intro hx
      have h3000 : inp.now - s.end_timer > 3000 := hgo.mp hx
      unfold fireCondition at hfc
      rw [h.1]
      by_contra hcon
      push_neg at hcon
      refine hfc ⟨hcon.1, hcon.2, ?_⟩
      unfold ALIEN_COOLDOWN
      omega

/-- Witness for C1_amended: a won game 5000 ticks past the end timer
returns True. -/
theorem C1_amended_witness :
    (C1doneResult.gameOver = true ↔
      (¬ fireCondition smallAssets ⟨5000, noKeys, 0⟩ C1doneState
          (frameExps C1doneState) ∧
        C1doneState.end_timer + 3000 < 5000)) ∧
    (C1doneResult.gameOver = true →
      C1doneState.aliens.length = 0 ∨
        C1doneResult.state.ship.health_remaining = 0) :=
  C1_amended smallAssets ⟨5000, noKeys, 0⟩ C1doneState C1doneResult rfl
    (by decide) (by decide)

/-! ### The countdown phase -/

/-- C7, corrected. The countdown is not decremented each time at least
1000 ticks have elapsed since the previous decrement: on a frame
exactly 1000 ticks after the last decrement the comparison is strict
and the countdown stays at 5. -/
theorem C7_counterexample :
    1000 - C7state.last_count ≥ 1000 ∧
    (play_step smallAssets ⟨1000, noKeys, 0⟩ C7state).map
      (fun r => r.state.countdown) = some 5 := by decide

/-- C7, amended. The countdown starts at GAME_COOLDOWN = 5; on every
frame with a nonzero countdown the ship, the player bullets, the aliens
and the alien bullets are left untouched, no game-over is signalled,
and the countdown decrements by one exactly when strictly more than
1000 ticks have elapsed since the previous decrement — so it reaches
zero only after strictly more than 5 seconds — and gameplay (the play
branch) runs exactly on the frames whose countdown is zero. -/
theorem C7_amended (A : Assets) (dims : Nat → Nat → Int × Int) (t : Nat)
    (inp : FrameInput) (s : GameState) (hc : s.countdown ≠ 0) :
    (initState A dims t).countdown = 5 ∧
    ∃ r, play_step A inp s = some r ∧ r.gameOver = false ∧
      r.winShown = false ∧ r.lossShown = false ∧
      r.state.ship = s.ship ∧ r.state.shipInGroup = s.shipInGroup ∧
      r.state.bullets = s.bullets ∧ r.state.aliens = s.aliens ∧
      r.state.alienBullets = s.alienBullets ∧
      r.state.countdown =
        (if inp.now - s.last_count > 1000 then s.countdown - 1
          else s.countdown) ∧
      r.state.last_count =
        (if inp.now - s.last_count > 1000 then inp.now else s.last_count) := by
  refine ⟨rfl, countdownPhase inp s (frameExps s), ?_, ?_⟩
  · unfold play_step
    rw [if_neg hc]
  · have h := countdownPhase_state inp s (frameExps s)
    exact ⟨h.1, h.2.1, h.2.2.1, h.2.2.2.1, h.2.2.2.2.1, h.2.2.2.2.2.1,
      h.2.2.2.2.2.2.1, h.2.2.2.2.2.2.2.1, h.2.2.2.2.2.2.2.2.1,
      h.2.2.2.2.2.2.2.2.2.1⟩

/-- Witness for C7_amended on a countdown frame 1500 ticks past the
previous decrement. -/
theorem C7_amended_witness :
    (initState smallAssets (fun _ _ => (10, 10)) 0).countdown = 5 ∧
    ∃ r, play_step smallAssets ⟨1500, noKeys, 0⟩ C7state = some r ∧
      r.gameOver = false ∧ r.winShown = false ∧ r.lossShown = false ∧
      r.state.ship = C7state.ship ∧
      r.state.shipInGroup = C7state.shipInGroup ∧
      r.state.bullets = C7state.bullets ∧
      r.state.aliens = C7state.aliens ∧
      r.state.alienBullets = C7state.alienBullets ∧
      r.state.countdown =
        (if 1500 - C7state.last_count > 1000 then C7state.countdown - 1
          else C7state.countdown) ∧
      r.state.last_count =
        (if 1500 - C7state.last_count > 1000 then 1500
          else C7state.last_count) :=
  C7_amended smallAssets (fun _ _ => (10, 10)) 0 ⟨1500, noKeys, 0⟩ C7state
    (by decide)

end SpaceInvaders

